import Mathlib

/-!
Shallow embedding of the `sshauth` command core of the poseidon agent
(`src/unnamed/part_000`, package `sshauth`) together with the `pwd` command
(`src/unnamed/part_001`).  Pure control flow is translated function by
function; the effects the Go code performs (channel sends, the network dial,
the filesystem read of a private key, JSON encoding, CIDR expansion) are made
explicit: channel sends become the list of values sent, and the external
collaborators become oracle parameters gathered in `Network` and `RunEnv`.
-/

namespace SshAuth

/-- Credential, from `src/unnamed/part_000` lines 29-33: a username together
with a password and a private-key reference (either may be empty). -/
structure Credential where
  Username : String
  Password : String
  PrivateKey : String
deriving Repr, DecidableEq

/-- SSHResult, from `src/unnamed/part_000` lines 43-49.  In Go the zero value
of the struct has `Status = ""`, `Success = false`, and empty strings for the
remaining fields; the embedding always writes every field explicitly. -/
structure SSHResult where
  Status : String
  Success : Bool
  Username : String
  Secret : String
  Host : String
deriving Repr, DecidableEq

/-- Authentication methods handed to the ssh library: `ssh.Password(pw)` or
`ssh.PublicKeys(key)` for a key parsed from the file named `keyFile`. -/
inductive AuthMethod where
  | password (pw : String)
  | publicKeys (keyFile : String)
deriving Repr, DecidableEq

/-- PublicKeyFile, from `src/unnamed/part_000` lines 52-63.  The two failure
paths (`ioutil.ReadFile` error, `ssh.ParsePrivateKey` error) both return the
nil auth method, here `none`; the oracle `keyOk` tells whether the file named
by `file` can be read and parsed. -/
def PublicKeyFile (keyOk : String → Bool) (file : String) : Option AuthMethod :=
  if keyOk file then some (AuthMethod.publicKeys file) else none

/-- Oracle for the external ssh library and the network (out of scope of the
repository: `golang.org/x/crypto/ssh`).  `reachable host port` is transport
connectivity, `accepts host m` whether the server accepts auth method `m`,
and `sessionErr host` whether `NewSession` fails after a successful dial and
with which error text. -/
structure Network where
  reachable : String → Nat → Bool
  accepts : String → AuthMethod → Bool
  sessionErr : String → Option String

/-- The `Auth` slice of the `ssh.ClientConfig` built by SSHLogin, from
`src/unnamed/part_000` lines 66-81: password auth when `PrivateKey` is empty,
otherwise only the (possibly nil) result of `PublicKeyFile`. -/
def sshAuthMethods (keyOk : String → Bool) (cred : Credential) : List (Option AuthMethod) :=
  if cred.PrivateKey = "" then [some (AuthMethod.password cred.Password)]
  else [PublicKeyFile keyOk cred.PrivateKey]

/-- Outcome of `ssh.Dial`: the transport must be reachable and some non-nil
auth method in the config must be accepted by the server.  A nil entry (a
failed `PublicKeyFile`) is never a usable method. -/
def dialOk (net : Network) (host : String) (port : Nat)
    (auth : List (Option AuthMethod)) : Bool :=
  net.reachable host port &&
    auth.any (fun m => match m with
      | some a => net.accepts host a
      | none => false)

/-- The single SSHResult value produced by one SSHLogin call, following the
three branches of `src/unnamed/part_000` lines 83-115: the result record is
built with `Host`, `Username` and `Secret` (password when `PrivateKey` is
empty, the key reference otherwise), then dial failure leaves
`Success = false` with `Status = ""`, a `NewSession` failure sets `Status` to
the error text, and otherwise `Success = true`. -/
def sshLoginOutcome (net : Network) (keyOk : String → Bool) (host : String)
    (port : Nat) (cred : Credential) : SSHResult :=
  let res : SSHResult :=
    { Status := ""
      Success := false
      Username := cred.Username
      Secret := if cred.PrivateKey = "" then cred.Password else cred.PrivateKey
      Host := host }
  if dialOk net host port (sshAuthMethods keyOk cred) = false then
    res
  else
    match net.sessionErr host with
    | some e => { res with Success := false, Status := e }
    | none => { res with Success := true }

/-- SSHLogin, from `src/unnamed/part_000` lines 65-116, as the list of values
sent on `sshResultChan`.  The Go function has exactly three return paths, one
send site each (lines 102, 109, 115); the `debug` flag only controls a log
line on the dial-failure path and never changes the result sent. -/
def SSHLogin (net : Network) (keyOk : String → Bool) (host : String)
    (port : Nat) (cred : Credential) (debug : Bool) : List SSHResult :=
  let _ := debug
  let res : SSHResult :=
    { Status := ""
      Success := false
      Username := cred.Username
      Secret := if cred.PrivateKey = "" then cred.Password else cred.PrivateKey
      Host := host }
  if dialOk net host port (sshAuthMethods keyOk cred) = false then
    [res]
  else
    match net.sessionErr host with
    | some e => [{ res with Success := false, Status := e }]
    | none => [{ res with Success := true }]

/-- Brute, from `src/unnamed/part_000` lines 118-131: one SSHLogin per
credential in order; `wg.Wait()` makes the call return only after every
launched trial has sent its result, so the sends of a Brute call are the
concatenation of the sends of its trials. -/
def Brute (net : Network) (keyOk : String → Bool) (host : String) (port : Nat)
    (creds : List Credential) (debug : Bool) : List SSHResult :=
  creds.flatMap (fun cred => SSHLogin net keyOk host port cred debug)

/-- The per-host concurrency ceiling, from `src/unnamed/part_000` line 134:
`var lim int64 = 100`. -/
def SSHBruteHostLim : Nat := 100

/-- SSHBruteHost, from `src/unnamed/part_000` lines 133-140: builds the
authenticator with a weighted semaphore of capacity `SSHBruteHostLim` and
runs Brute.  The semaphore dynamics are modelled separately by
`LimiterStep`. -/
def SSHBruteHost (net : Network) (keyOk : String → Bool) (host : String)
    (port : Nat) (creds : List Credential) (debug : Bool) : List SSHResult :=
  Brute net keyOk host port creds debug

/-- All AttemptResults ever sent on `sshResultChan` during one job: one
Brute call per host (`src/unnamed/part_000` lines 143-147). -/
def producedResults (net : Network) (keyOk : String → Bool)
    (hosts : List String) (port : Nat) (creds : List Credential)
    (debug : Bool) : List SSHResult :=
  hosts.flatMap (fun h => SSHBruteHost net keyOk h port creds debug)

/-- Number of channel receives performed by the aggregation loop of
SSHBruteForce, from `src/unnamed/part_000` lines 149-154: the loop runs
`for i := 0; i < len(hosts); i++` and performs one `<-sshResultChan` per
iteration. -/
def SSHBruteForceReceiveCount (hosts : List String) : Nat := hosts.length

/-- SSHBruteForce, from `src/unnamed/part_000` lines 142-156.  The producers
emit `producedResults`; the scheduler oracle `arrive` gives the order in
which those sends are received; the loop consumes exactly `hosts.length`
results and keeps the successful ones. -/
def SSHBruteForce (net : Network) (keyOk : String → Bool)
    (hosts : List String) (port : Nat) (creds : List Credential)
    (debug : Bool) (arrive : List SSHResult → List SSHResult) : List SSHResult :=
  let produced := producedResults net keyOk hosts port creds debug
  ((arrive produced).take (SSHBruteForceReceiveCount hosts)).filter
    (fun r => r.Success)

/-- State of one Brute call's semaphore and wait group, from
`src/unnamed/part_000` lines 118-131: `launched` trials started so far,
`finished` trials completed, `avail` free semaphore slots. -/
structure LimiterState where
  launched : Nat
  finished : Nat
  avail : Nat
deriving Repr, DecidableEq

/-- Number of trials currently in flight against the host. -/
def LimiterState.inFlight (s : LimiterState) : Nat := s.launched - s.finished

/-- Initial state of a Brute call protected by a semaphore of capacity
`lim` (`semaphore.NewWeighted(lim)` in SSHBruteHost). -/
def initLimiter (lim : Nat) : LimiterState :=
  { launched := 0, finished := 0, avail := lim }

/-- One scheduler step of Brute over `numCreds` credentials.  `acquireLaunch`
is `auth.lock.Acquire(context.TODO(), 1)` followed by the `go` launch of one
trial (lines 122-128): it requires a free slot, so a saturated semaphore
blocks the launching loop.  `finishRelease` is one trial completing, whose
deferred `auth.lock.Release(1)` (line 125) runs unconditionally, on success
and failure alike. -/
inductive LimiterStep (numCreds : Nat) : LimiterState → LimiterState → Prop where
  | acquireLaunch (s : LimiterState) (hmore : s.launched < numCreds)
      (hslot : 0 < s.avail) :
      LimiterStep numCreds s
        { launched := s.launched + 1, finished := s.finished, avail := s.avail - 1 }
  | finishRelease (s : LimiterState) (hrun : s.finished < s.launched) :
      LimiterStep numCreds s
        { launched := s.launched, finished := s.finished + 1, avail := s.avail + 1 }

/-- States a Brute call over `numCreds` credentials and a semaphore of
capacity `lim` can reach. -/
inductive LimiterReachable (numCreds lim : Nat) : LimiterState → Prop where
  | init : LimiterReachable numCreds lim (initLimiter lim)
  | step (s t : LimiterState) : LimiterReachable numCreds lim s →
      LimiterStep numCreds s t → LimiterReachable numCreds lim t

/-- SSHTestParams, from `src/unnamed/part_000` lines 35-41. -/
structure SSHTestParams where
  Hosts : List String
  Port : Nat
  Username : String
  Password : String
  PrivateKey : String
deriving Repr, DecidableEq

/-- Result of parsing the task parameters, standing for `json.Unmarshal` on
`SSHTestParams` (external `encoding/json`). -/
inductive ParseOutcome where
  | err (msg : String)
  | ok (params : SSHTestParams)

/-- Modelled from the spec: `structs.Task` from `pkg/utils/structs` is not
under src; Run only reads its `Params` string (the raw task parameters), per
the job-request interface of the spec. -/
structure Task where
  Params : String
deriving Repr, DecidableEq

/-- Modelled from the spec: `structs.ThreadMsg` from `pkg/utils/structs` is
not under src; Run sets `TaskItem`, `TaskResult` (bytes, here a string) and
`Error`, matching the spec's job-response envelope. -/
structure ThreadMsg where
  TaskItem : Task
  TaskResult : String
  Error : Bool
deriving Repr, DecidableEq

/-- External collaborators of Run: `parse` is `json.Unmarshal` into
SSHTestParams; `cidr` is `portscan.NewCIDR` (none = parse error, skipped;
some = the `PrettyName`s of the hosts in the range); `marshalIndent` is
`json.MarshalIndent`; `net`, `keyOk` and `arrive` drive the brute force as
above. -/
structure RunEnv where
  parse : String → ParseOutcome
  cidr : String → Option (List String)
  marshalIndent : List SSHResult → Except String String
  net : Network
  keyOk : String → Bool
  arrive : List SSHResult → List SSHResult

/-- Observable behaviour of one Run call: the ThreadMsgs sent on
`threadChannel`, the arguments of the SSHBruteForce call when one was made,
and the success list SSHBruteForce returned. -/
structure RunTrace where
  sent : List ThreadMsg
  bruteCall : Option (List String × Nat × List Credential)
  successes : List SSHResult

/-- Expansion of the host parameters, from `src/unnamed/part_000` lines
194-206: entries `NewCIDR` rejects are skipped, the others contribute the
pretty names of every host in the range, in order. -/
def totalHostsOf (env : RunEnv) (hosts : List String) : List String :=
  hosts.flatMap (fun h => match env.cidr h with
    | none => []
    | some hs => hs)

/-- Validation message of `src/unnamed/part_000` line 174. -/
def msgNoHosts : String := "Error: No host or list of hosts given."

/-- Validation message of `src/unnamed/part_000` line 181. -/
def msgNoSecret : String :=
  "Error: No password or private key given to attempt authentication with."

/-- Validation message of `src/unnamed/part_000` line 188. -/
def msgNoUser : String := "Error: No username given to attempt authentication with."

/-- The no-success marker of `src/unnamed/part_000` line 234. -/
def noSuccessMarker : String := "[-] No successful authentication attempts."

/-- The port Run hands to SSHBruteForce, from `src/unnamed/part_000` lines
208-210: 22 when the supplied port is zero, the supplied port otherwise. -/
def runPort (params : SSHTestParams) : Nat :=
  if params.Port = 0 then 22 else params.Port

/-- The single credential Run builds, from `src/unnamed/part_000` lines
212-216. -/
def credOf (params : SSHTestParams) : Credential :=
  { Username := params.Username
    Password := params.Password
    PrivateKey := params.PrivateKey }

/-- The success list returned by the SSHBruteForce call of
`src/unnamed/part_000` line 218. -/
def runBruteResults (env : RunEnv) (params : SSHTestParams) : List SSHResult :=
  SSHBruteForce env.net env.keyOk (totalHostsOf env params.Hosts)
    (runPort params) [credOf params] false env.arrive

/-- The argument triple of that SSHBruteForce call. -/
def runCallArgs (env : RunEnv) (params : SSHTestParams) :
    List String × Nat × List Credential :=
  (totalHostsOf env params.Hosts, runPort params, [credOf params])

/-- Run, from `src/unnamed/part_000` lines 158-238, translated branch by
branch: unmarshal failure, the three validation checks (hosts, then
password/private key, then username), CIDR expansion, port defaulting,
the SSHBruteForce call with the single credential and `debug = false`, and
the rendering of the result list. -/
def Run (env : RunEnv) (task : Task) : RunTrace :=
  match env.parse task.Params with
  | ParseOutcome.err e =>
      { sent := [{ TaskItem := task, TaskResult := e, Error := true }]
        bruteCall := none, successes := [] }
  | ParseOutcome.ok params =>
    if params.Hosts.length = 0 then
      { sent := [{ TaskItem := task, TaskResult := msgNoHosts, Error := true }]
        bruteCall := none, successes := [] }
    else if params.Password = "" ∧ params.PrivateKey = "" then
      { sent := [{ TaskItem := task, TaskResult := msgNoSecret, Error := true }]
        bruteCall := none, successes := [] }
    else if params.Username = "" then
      { sent := [{ TaskItem := task, TaskResult := msgNoUser, Error := true }]
        bruteCall := none, successes := [] }
    else
      let results := runBruteResults env params
      if results.length > 0 then
        match env.marshalIndent results with
        | Except.error e =>
            { sent := [{ TaskItem := task, TaskResult := e, Error := true }]
              bruteCall := some (runCallArgs env params), successes := results }
        | Except.ok data =>
            { sent := [{ TaskItem := task, TaskResult := data, Error := false }]
              bruteCall := some (runCallArgs env params), successes := results }
      else
        { sent := [{ TaskItem := task, TaskResult := noSuccessMarker, Error := false }]
          bruteCall := some (runCallArgs env params), successes := results }

/-- Whether the auth configuration contains a password method at all. -/
def usesPassword (auth : List (Option AuthMethod)) : Bool :=
  auth.any (fun m => match m with
    | some (AuthMethod.password _) => true
    | _ => false)

/-- Test fixture: a network where no host is reachable. -/
def netDown : Network :=
  { reachable := fun _ _ => false
    accepts := fun _ _ => true
    sessionErr := fun _ => none }

/-- Test fixture: a network where every host is reachable, every auth method
is accepted and sessions always open. -/
def netUp : Network :=
  { reachable := fun _ _ => true
    accepts := fun _ _ => true
    sessionErr := fun _ => none }

/-- Test fixture: a password-only credential. -/
def credPw : Credential :=
  { Username := "root", Password := "toor", PrivateKey := "" }

/-- Test fixture: a credential carrying a private-key reference and a
password. -/
def credKey : Credential :=
  { Username := "root", Password := "toor", PrivateKey := "/tmp/id_rsa" }

/-- Test fixture: every key file reads and parses. -/
def keyOkAll : String → Bool := fun _ => true

/-- Test fixture: no key file reads or parses. -/
def keyOkNone : String → Bool := fun _ => false

theorem SSHLogin_eq_singleton (net : Network) (keyOk : String → Bool)
    (host : String) (port : Nat) (cred : Credential) (debug : Bool) :
    SSHLogin net keyOk host port cred debug =
      [sshLoginOutcome net keyOk host port cred] := by
  unfold SSHLogin sshLoginOutcome
  by_cases h : dialOk net host port (sshAuthMethods keyOk cred) = false
  · simp [h]
  · simp only [h, if_false]
    cases net.sessionErr host <;> simp [h]

/-- C2: every SSHLogin call sends exactly one SSHResult (the Go function has
one send site on each of its three return paths and raises nothing to its
caller — the embedding is a total function into the list of sends), and
exactly one of three outcomes holds: dial failure gives `Success = false`
with empty `Status`; session failure after a successful dial gives
`Success = false` with `Status` the error text; an established session gives
`Success = true`. -/
theorem sshlogin_single_send_trichotomy (net : Network) (keyOk : String → Bool)
    (host : String) (port : Nat) (cred : Credential) (debug : Bool) :
    SSHLogin net keyOk host port cred debug =
      [sshLoginOutcome net keyOk host port cred] ∧
    (dialOk net host port (sshAuthMethods keyOk cred) = false →
      (sshLoginOutcome net keyOk host port cred).Success = false ∧
      (sshLoginOutcome net keyOk host port cred).Status = "") ∧
    (dialOk net host port (sshAuthMethods keyOk cred) = true →
      net.sessionErr host = none →
      (sshLoginOutcome net keyOk host port cred).Success = true) ∧
    (dialOk net host port (sshAuthMethods keyOk cred) = true →
      net.sessionErr host ≠ none →
      (sshLoginOutcome net keyOk host port cred).Success = false ∧
      net.sessionErr host = some (sshLoginOutcome net keyOk host port cred).Status) := by
  refine ⟨SSHLogin_eq_singleton net keyOk host port cred debug, ?_, ?_, ?_⟩
  · intro h
    simp [sshLoginOutcome, h]
  · intro h hs
    simp [sshLoginOutcome, h, hs]
  · intro h hs
    unfold sshLoginOutcome
    simp only [h]
    cases he : net.sessionErr host with
    | none => exact absurd he hs
    | some e => simp [he]

/-- Witness for C2 at a concrete unreachable host: one result is sent, with
`Success = false` and empty `Status`. -/
theorem sshlogin_single_send_trichotomy_witness :
    SSHLogin netDown keyOkAll "10.0.0.1" 22 credPw false =
      [sshLoginOutcome netDown keyOkAll "10.0.0.1" 22 credPw] ∧
    (sshLoginOutcome netDown keyOkAll "10.0.0.1" 22 credPw).Success = false ∧
    (sshLoginOutcome netDown keyOkAll "10.0.0.1" 22 credPw).Status = "" :=
  ⟨(sshlogin_single_send_trichotomy netDown keyOkAll "10.0.0.1" 22 credPw false).1,
   (sshlogin_single_send_trichotomy netDown keyOkAll "10.0.0.1" 22 credPw false).2.1 rfl⟩

theorem sshLoginOutcome_fields (net : Network) (keyOk : String → Bool)
    (host : String) (port : Nat) (cred : Credential) :
    (sshLoginOutcome net keyOk host port cred).Username = cred.Username ∧
    (sshLoginOutcome net keyOk host port cred).Host = host ∧
    (sshLoginOutcome net keyOk host port cred).Secret =
      (if cred.PrivateKey = "" then cred.Password else cred.PrivateKey) := by
  by_cases h : dialOk net host port (sshAuthMethods keyOk cred) = false
  · simp [sshLoginOutcome, h]
  · cases he : net.sessionErr host <;> simp [sshLoginOutcome, h, he]

/-- C3: when the credential's `PrivateKey` is non-empty the auth
configuration is the `PublicKeyFile` method alone (never a password method),
and the result echoes the private key in `Secret`; when it is empty the auth
configuration is the password method and `Secret` is the password; `Username`
and `Host` of the result always equal the credential's username and the
target host. -/
theorem credential_preference_and_echo (net : Network) (keyOk : String → Bool)
    (host : String) (port : Nat) (cred : Credential) :
    (cred.PrivateKey ≠ "" →
      sshAuthMethods keyOk cred = [PublicKeyFile keyOk cred.PrivateKey] ∧
      usesPassword (sshAuthMethods keyOk cred) = false ∧
      (sshLoginOutcome net keyOk host port cred).Secret = cred.PrivateKey) ∧
    (cred.PrivateKey = "" →
      sshAuthMethods keyOk cred = [some (AuthMethod.password cred.Password)] ∧
      (sshLoginOutcome net keyOk host port cred).Secret = cred.Password) ∧
    (sshLoginOutcome net keyOk host port cred).Username = cred.Username ∧
    (sshLoginOutcome net keyOk host port cred).Host = host := by
  obtain ⟨hu, hh, hs⟩ := sshLoginOutcome_fields net keyOk host port cred
  refine ⟨?_, ?_, hu, hh⟩
  · intro h
    refine ⟨by simp [sshAuthMethods, h], ?_, by rw [hs, if_neg h]⟩
    unfold usesPassword sshAuthMethods PublicKeyFile
    by_cases hk : keyOk cred.PrivateKey <;> simp [h, hk]
  · intro h
    exact ⟨by simp [sshAuthMethods, h], by rw [hs, if_pos h]⟩

/-- Witness for C3 at a concrete credential with both a password and a
private key: the key alone is offered and echoed back. -/
theorem credential_preference_and_echo_witness :
    sshAuthMethods keyOkAll credKey = [PublicKeyFile keyOkAll credKey.PrivateKey] ∧
    usesPassword (sshAuthMethods keyOkAll credKey) = false ∧
    (sshLoginOutcome netUp keyOkAll "10.0.0.1" 22 credKey).Secret = credKey.PrivateKey :=
  (credential_preference_and_echo netUp keyOkAll "10.0.0.1" 22 credKey).1 (by decide)

/-- C5: when Brute returns, its trials have sent exactly one result per
credential of its input list, in list order: the sends of a Brute call are
exactly the map of the single-attempt outcome over the credentials, so their
count equals the credential count. -/
theorem brute_one_result_per_credential (net : Network) (keyOk : String → Bool)
    (host : String) (port : Nat) (creds : List Credential) (debug : Bool) :
    Brute net keyOk host port creds debug =
      creds.map (fun cred => sshLoginOutcome net keyOk host port cred) ∧
    (Brute net keyOk host port creds debug).length = creds.length := by
  have h : Brute net keyOk host port creds debug =
      creds.map (fun cred => sshLoginOutcome net keyOk host port cred) := by
    unfold Brute
    induction creds with
    | nil => simp
    | cons c cs ih =>
      rw [List.flatMap_cons, ih, SSHLogin_eq_singleton, List.map_cons,
        List.singleton_append]
  exact ⟨h, by rw [h, List.length_map]⟩

/-- C8: a credential with a non-empty private-key reference whose key cannot
be read or parsed yields the nil auth method from PublicKeyFile, offers no
password method (no fallback), cannot complete a dial (the failure is local,
independent of the network), and SSHLogin still sends exactly one result,
with `Success = false`, raising nothing. -/
theorem unparseable_key_fails_locally (net : Network) (keyOk : String → Bool)
    (host : String) (port : Nat) (cred : Credential) (debug : Bool)
    (hk : cred.PrivateKey ≠ "") (hbad : keyOk cred.PrivateKey = false) :
    PublicKeyFile keyOk cred.PrivateKey = none ∧
    usesPassword (sshAuthMethods keyOk cred) = false ∧
    dialOk net host port (sshAuthMethods keyOk cred) = false ∧
    SSHLogin net keyOk host port cred debug =
      [{ Status := "", Success := false, Username := cred.Username,
         Secret := cred.PrivateKey, Host := host }] := by
  have hpk : PublicKeyFile keyOk cred.PrivateKey = none := by
    simp [PublicKeyFile, hbad]
  have hauth : sshAuthMethods keyOk cred = [none] := by
    simp [sshAuthMethods, hk, hpk]
  have hdial : dialOk net host port (sshAuthMethods keyOk cred) = false := by
    simp [dialOk, hauth]
  refine ⟨hpk, by simp [usesPassword, hauth], hdial, ?_⟩
  rw [SSHLogin_eq_singleton]
  unfold sshLoginOutcome
  simp [hdial, hk]

/-- Witness for C8: a concrete credential with an unreadable key against a
fully reachable, fully accepting network still fails locally with a single
`Success = false` result. -/
theorem unparseable_key_fails_locally_witness :
    PublicKeyFile keyOkNone credKey.PrivateKey = none ∧
    usesPassword (sshAuthMethods keyOkNone credKey) = false ∧
    dialOk netUp "10.0.0.1" 22 (sshAuthMethods keyOkNone credKey) = false ∧
    SSHLogin netUp keyOkNone "10.0.0.1" 22 credKey false =
      [{ Status := "", Success := false, Username := credKey.Username,
         Secret := credKey.PrivateKey, Host := "10.0.0.1" }] :=
  unparseable_key_fails_locally netUp keyOkNone "10.0.0.1" 22 credKey false
    (by decide) rfl

theorem limiter_invariant (numCreds lim : Nat) (s : LimiterState)
    (h : LimiterReachable numCreds lim s) :
    s.finished ≤ s.launched ∧ s.avail + s.launched = lim + s.finished := by
  induction h with
  | init => simp [initLimiter]
  | step u t hr hst ih =>
    obtain ⟨ih1, ih2⟩ := ih
    cases hst with
    | acquireLaunch hmore hslot =>
      dsimp only
      omega
    | finishRelease hrun =>
      dsimp only
      omega

/-- C4: in every state a Brute call can reach, the number of in-flight
trials against its host never exceeds the ceiling of 100: a slot of the
weighted semaphore of capacity `SSHBruteHostLim = 100` is acquired
(blocking) before each trial is launched and released unconditionally when
the trial completes, success and failure alike. -/
theorem ceiling_respected (numCreds : Nat) (s : LimiterState)
    (h : LimiterReachable numCreds SSHBruteHostLim s) :
    s.inFlight ≤ 100 := by
  obtain ⟨h1, h2⟩ := limiter_invariant numCreds SSHBruteHostLim s h
  have hl : SSHBruteHostLim = 100 := rfl
  unfold LimiterState.inFlight
  omega

/-- Witness for C4: the state after launching one of two trials from the
initial state is reachable and respects the ceiling. -/
theorem ceiling_respected_witness :
    LimiterState.inFlight { launched := 1, finished := 0, avail := 99 } ≤ 100 :=
  ceiling_respected 2 { launched := 1, finished := 0, avail := 99 }
    (LimiterReachable.step (initLimiter SSHBruteHostLim)
      { launched := 1, finished := 0, avail := 99 }
      LimiterReachable.init
      (LimiterStep.acquireLaunch (initLimiter SSHBruteHostLim)
        (by decide) (by decide)))

/-- Test fixture: a pair of hosts. -/
def hostsPair : List String := ["10.0.0.1", "10.0.0.2"]

/-- Test fixture: two password credentials. -/
def credsPair : List Credential :=
  [{ Username := "root", Password := "a", PrivateKey := "" },
   { Username := "root", Password := "b", PrivateKey := "" }]

/-- C1 is violated by the code: the aggregation loop of SSHBruteForce
performs one receive per host — `SSHBruteForceReceiveCount` — while the job's
producers send one result per (host, credential) pair, so with 2 hosts and 2
credentials only 2 of the 4 produced results are ever consumed and the
remaining producer goroutines block forever on the unbuffered channel. -/
theorem aggregation_receive_undercount :
    SSHBruteForceReceiveCount hostsPair = 2 ∧
    (producedResults netDown keyOkAll hostsPair 22 credsPair false).length = 4 ∧
    SSHBruteForceReceiveCount hostsPair ≠
      (producedResults netDown keyOkAll hostsPair 22 credsPair false).length := by
  refine ⟨rfl, rfl, ?_⟩
  intro h
  simp only [SSHBruteForceReceiveCount] at h
  exact absurd h (by decide)

theorem run_valid_shape (env : RunEnv) (task : Task) (params : SSHTestParams)
    (hp : env.parse task.Params = ParseOutcome.ok params)
    (hh : params.Hosts.length ≠ 0)
    (hsec : ¬(params.Password = "" ∧ params.PrivateKey = ""))
    (hu : params.Username ≠ "") :
    (Run env task).successes = runBruteResults env params ∧
    (Run env task).bruteCall = some (runCallArgs env params) := by
  unfold Run
  rw [hp]
  by_cases hr : (runBruteResults env params).length > 0
  · cases hm : env.marshalIndent (runBruteResults env params) <;>
      simp [hh, hsec, hu, hr, hm]
  · simp [hh, hsec, hu, hr]

/-- C6: when the parsed parameters have no hosts, or no username, or neither
a password nor a private key, Run sends a single ThreadMsg with
`Error = true` carrying one of the three validation messages, and
SSHBruteForce is never called. -/
theorem run_rejects_invalid_params (env : RunEnv) (task : Task)
    (params : SSHTestParams)
    (hp : env.parse task.Params = ParseOutcome.ok params)
    (hbad : params.Hosts = [] ∨ params.Username = "" ∨
      (params.Password = "" ∧ params.PrivateKey = "")) :
    (Run env task).bruteCall = none ∧
    (Run env task).sent.length = 1 ∧
    (Run env task).sent.all (fun m => m.Error) = true ∧
    ((Run env task).sent.map (fun m => m.TaskResult) = [msgNoHosts] ∨
     (Run env task).sent.map (fun m => m.TaskResult) = [msgNoSecret] ∨
     (Run env task).sent.map (fun m => m.TaskResult) = [msgNoUser]) := by
  unfold Run
  rw [hp]
  by_cases h1 : params.Hosts.length = 0
  · simp [h1]
  · by_cases h2 : params.Password = "" ∧ params.PrivateKey = ""
    · simp [h1, h2]
    · by_cases h3 : params.Username = ""
      · simp [h1, h2, h3]
      · exfalso
        rcases hbad with hb | hb | hb
        · exact h1 (by simp [hb])
        · exact h3 hb
        · exact h2 hb

/-- Test fixture: an arbitrary task envelope. -/
def taskA : Task := { Params := "raw-task-params" }

/-- Test fixture: parameters with an empty host list. -/
def paramsNoHosts : SSHTestParams :=
  { Hosts := [], Port := 0, Username := "root", Password := "toor", PrivateKey := "" }

/-- Test fixture: an environment whose parsed parameters have no hosts. -/
def envNoHosts : RunEnv :=
  { parse := fun _ => ParseOutcome.ok paramsNoHosts
    cidr := fun _ => none
    marshalIndent := fun _ => Except.ok ""
    net := netDown
    keyOk := keyOkAll
    arrive := fun l => l }

/-- Witness for C6: the no-hosts task is rejected with an error message and
no brute-force call. -/
theorem run_rejects_invalid_params_witness :
    (Run envNoHosts taskA).bruteCall = none ∧
    (Run envNoHosts taskA).sent.length = 1 ∧
    (Run envNoHosts taskA).sent.all (fun m => m.Error) = true ∧
    ((Run envNoHosts taskA).sent.map (fun m => m.TaskResult) = [msgNoHosts] ∨
     (Run envNoHosts taskA).sent.map (fun m => m.TaskResult) = [msgNoSecret] ∨
     (Run envNoHosts taskA).sent.map (fun m => m.TaskResult) = [msgNoUser]) :=
  run_rejects_invalid_params envNoHosts taskA paramsNoHosts rfl (Or.inl rfl)

/-- C9: on every task that passes validation Run invokes SSHBruteForce with
`runPort params`, which is 22 when the supplied port is zero and the
supplied value unchanged otherwise. -/
theorem run_port_defaulting (env : RunEnv) (task : Task)
    (params : SSHTestParams)
    (hp : env.parse task.Params = ParseOutcome.ok params)
    (hh : params.Hosts.length ≠ 0)
    (hsec : ¬(params.Password = "" ∧ params.PrivateKey = ""))
    (hu : params.Username ≠ "") :
    (Run env task).bruteCall =
      some (totalHostsOf env params.Hosts, runPort params, [credOf params]) ∧
    (params.Port = 0 → runPort params = 22) ∧
    (params.Port ≠ 0 → runPort params = params.Port) := by
  refine ⟨(run_valid_shape env task params hp hh hsec hu).2, ?_, ?_⟩
  · intro h
    simp [runPort, h]
  · intro h
    simp [runPort, h]

/-- Test fixture: valid parameters with port zero. -/
def paramsPortZero : SSHTestParams :=
  { Hosts := ["10.0.0.0/30"], Port := 0, Username := "root",
    Password := "toor", PrivateKey := "" }

/-- Test fixture: an environment whose parsed parameters are valid with port
zero, two expanded hosts, and an unreachable network. -/
def envPortZero : RunEnv :=
  { parse := fun _ => ParseOutcome.ok paramsPortZero
    cidr := fun _ => some ["10.0.0.1", "10.0.0.2"]
    marshalIndent := fun _ => Except.ok "[]"
    net := netDown
    keyOk := keyOkAll
    arrive := fun l => l }

/-- Witness for C9: the zero port of a concrete valid task is replaced by
22 in the SSHBruteForce call. -/
theorem run_port_defaulting_witness :
    (Run envPortZero taskA).bruteCall =
      some (totalHostsOf envPortZero paramsPortZero.Hosts, runPort paramsPortZero,
        [credOf paramsPortZero]) ∧
    (paramsPortZero.Port = 0 → runPort paramsPortZero = 22) ∧
    (paramsPortZero.Port ≠ 0 → runPort paramsPortZero = paramsPortZero.Port) :=
  run_port_defaulting envPortZero taskA paramsPortZero rfl
    (by decide) (by decide) (by decide)

/-- C7: on a validated task whose success list comes back empty Run sends
the literal no-success marker with `Error = false`; when the success list is
non-empty and marshals to `data` Run sends `data` with `Error = false`. -/
theorem run_rendering (env : RunEnv) (task : Task) (params : SSHTestParams)
    (data : String)
    (hp : env.parse task.Params = ParseOutcome.ok params)
    (hh : params.Hosts.length ≠ 0)
    (hsec : ¬(params.Password = "" ∧ params.PrivateKey = ""))
    (hu : params.Username ≠ "")
    (hm : env.marshalIndent (runBruteResults env params) = Except.ok data) :
    ((Run env task).successes = [] →
      (Run env task).sent =
        [{ TaskItem := task, TaskResult := noSuccessMarker, Error := false }]) ∧
    ((Run env task).successes ≠ [] →
      (Run env task).sent =
        [{ TaskItem := task, TaskResult := data, Error := false }]) := by
  have hsucc := (run_valid_shape env task params hp hh hsec hu).1
  constructor
  · intro h0
    rw [hsucc] at h0
    unfold Run
    rw [hp]
    simp [hh, hsec, hu, h0]
  · intro h0
    rw [hsucc] at h0
    have hr : (runBruteResults env params).length > 0 := by
      cases hq : runBruteResults env params with
      | nil => exact absurd hq h0
      | cons a l => simp [hq]
    unfold Run
    rw [hp]
    simp [hh, hsec, hu, hr, hm]

/-- Witness for C7: the all-fail job of `envPortZero` renders the literal
no-success marker with `Error = false`. -/
theorem run_rendering_witness :
    (Run envPortZero taskA).successes = [] ∧
    (Run envPortZero taskA).sent =
      [{ TaskItem := taskA, TaskResult := noSuccessMarker, Error := false }] := by
  have h0 : (Run envPortZero taskA).successes = [] := by decide
  exact ⟨h0, (run_rendering envPortZero taskA paramsPortZero "[]" rfl
    (by decide) (by decide) (by decide) rfl).1 h0⟩

/-- C10: every Run call sends exactly one ThreadMsg, on every path —
unmarshal failure, each validation failure, marshal failure, non-empty and
empty success lists alike. -/
theorem run_sends_exactly_one (env : RunEnv) (task : Task) :
    (Run env task).sent.length = 1 := by
  unfold Run
  cases hp : env.parse task.Params with
  | err e => simp
  | ok params =>
    by_cases h1 : params.Hosts.length = 0
    · simp [h1]
    · by_cases h2 : params.Password = "" ∧ params.PrivateKey = ""
      · simp [h1, h2]
      · by_cases h3 : params.Username = ""
        · simp [h1, h2, h3]
        · by_cases hr : (runBruteResults env params).length > 0
          · cases hm : env.marshalIndent (runBruteResults env params) <;>
              simp [h1, h2, h3, hr, hm]
          · simp [h1, h2, h3, hr]

end SshAuth
